import Mathlib

/-!
Shallow embedding of the spherical-orbit navigation logic of
`src/main.js` (an XR scene viewer built on three.js), together with
proofs of the specified properties.  JavaScript numbers are modelled as
real numbers; the mutable globals (`spherical`, `rig`, the per-hand
`userData` records, the mode flags) are modelled by explicit state
passing.
-/

noncomputable section

namespace ThreeNav

/-- three.js `MathUtils.clamp(value, min, max) = Math.max(min, Math.min(max, value))`. -/
def clamp (value lo hi : ℝ) : ℝ := max lo (min hi value)

/-- JavaScript `Math.atan2(y, x)`: the angle of the point `(x, y)`,
in `(-π, π]`, with `atan2 0 0 = 0`.  This is exactly `Complex.arg (x + y*I)`. -/
def atan2 (y x : ℝ) : ℝ := Complex.arg ⟨x, y⟩

/-- A three.js `Vector3`. -/
@[ext]
structure Vector3 where
  x : ℝ
  y : ℝ
  z : ℝ
  deriving DecidableEq

/-- three.js `Vector3.subVectors` / `sub`. -/
def Vector3.sub (a b : Vector3) : Vector3 := ⟨a.x - b.x, a.y - b.y, a.z - b.z⟩

/-- three.js `Vector3.addVectors` / `add`. -/
def Vector3.add (a b : Vector3) : Vector3 := ⟨a.x + b.x, a.y + b.y, a.z + b.z⟩

/-- three.js `Vector3.multiplyScalar`. -/
def Vector3.multiplyScalar (a : Vector3) (s : ℝ) : Vector3 := ⟨a.x * s, a.y * s, a.z * s⟩

/-- three.js `Vector3.length`. -/
def Vector3.length (v : Vector3) : ℝ := Real.sqrt (v.x ^ 2 + v.y ^ 2 + v.z ^ 2)

/-- A three.js `Spherical`: radius, phi (polar angle from +Y), theta (azimuth). -/
@[ext]
structure Spherical where
  radius : ℝ
  phi : ℝ
  theta : ℝ
  deriving DecidableEq

/-- three.js `Spherical.setFromVector3(v)` (= `setFromCartesianCoords(v.x, v.y, v.z)`):
`radius = sqrt(x²+y²+z²)`; if `radius === 0` then `theta = phi = 0`, else
`theta = atan2(x, z)` and `phi = acos(clamp(y / radius, -1, 1))`. -/
def Spherical.setFromVector3 (v : Vector3) : Spherical :=
  let radius := Real.sqrt (v.x * v.x + v.y * v.y + v.z * v.z)
  if radius = 0 then ⟨0, 0, 0⟩
  else ⟨radius, Real.arccos (clamp (v.y / radius) (-1) 1), atan2 v.x v.z⟩

/-- three.js `Vector3.setFromSpherical(s)` (= `setFromSphericalCoords`):
`sinPhiRadius = sin(phi) * radius`; `x = sinPhiRadius * sin(theta)`,
`y = cos(phi) * radius`, `z = sinPhiRadius * cos(theta)`. -/
def Vector3.setFromSpherical (s : Spherical) : Vector3 :=
  let sinPhiRadius := Real.sin s.phi * s.radius
  ⟨sinPhiRadius * Real.sin s.theta, Real.cos s.phi * s.radius,
    sinPhiRadius * Real.cos s.theta⟩

/-- The navigation tuning constants of `main.js` (`const XR_NAV = {...}`). -/
structure NavConfig where
  orbitSpeed : ℝ
  dollySpeed : ℝ
  minRadius : ℝ
  maxRadius : ℝ
  minPhi : ℝ
  maxPhi : ℝ

/-- `XR_NAV` from `main.js`. -/
def XR_NAV : NavConfig :=
  { orbitSpeed := 1.4
    dollySpeed := 3.0
    minRadius := 1.5
    maxRadius := 50
    minPhi := 0.01
    maxPhi := Real.pi - 0.01 }

/-- The fixed pivot, `const target = new THREE.Vector3(-1, 2, 0)`. -/
def target : Vector3 := ⟨-1, 2, 0⟩

/-- The initial desktop camera position, `camera.position.set(-5, 5, 12)`. -/
def initialCameraPosition : Vector3 := ⟨-5, 5, 12⟩

/-- The IIFE `syncSpherical` of `main.js`: seed the spherical state from a
camera world position, `spherical.setFromVector3(cameraPosition - target)`. -/
def syncSpherical (cameraPosition : Vector3) : Spherical :=
  Spherical.setFromVector3 (cameraPosition.sub target)

/-- The orbit rig: a scene-graph node with a position and an orientation.
`lookAt` orientation is modelled by recording the point being looked at. -/
structure Rig where
  position : Vector3
  lookTarget : Vector3
  deriving DecidableEq

/-- The mutable state touched by `applySphericalToRig`: the global
`spherical`, the global `rig`, and the pivot `target` that it reads. -/
structure World where
  spherical : Spherical
  rig : Rig
  target : Vector3

/-- `applySphericalToRig()` of `main.js`: clamps `spherical.radius` and
`spherical.phi` in place, computes
`pos = new Vector3().setFromSpherical(spherical).add(target)`, copies `pos`
into `rig.position`, and orients the rig toward `target` (`rig.lookAt(target)`). -/
def applySphericalToRig (w : World) : World :=
  let radius := clamp w.spherical.radius XR_NAV.minRadius XR_NAV.maxRadius
  let phi := clamp w.spherical.phi XR_NAV.minPhi XR_NAV.maxPhi
  let s : Spherical := ⟨radius, phi, w.spherical.theta⟩
  let pos := (Vector3.setFromSpherical s).add w.target
  { w with spherical := s, rig := ⟨pos, w.target⟩ }

/-- An XR gamepad, as read by `updateXROrbit`: just its `axes` array. -/
structure Gamepad where
  axes : List ℝ

/-- JavaScript `gp.axes[i] ?? gp.axes[j] ?? 0`: index `i` if present in the
array, else index `j` if present, else `0`. -/
def axisOr (axes : List ℝ) (i j : ℕ) : ℝ :=
  match axes.get? i with
  | some v => v
  | none => (axes.get? j).getD 0

/-- The body of the `session.inputSources.forEach` loop in `updateXROrbit`
(the gamepad branch, lines 158-173 of `main.js`):
`lx = axes[2] ?? axes[0] ?? 0`, `ly = axes[3] ?? axes[1] ?? 0`,
`theta -= lx * orbitSpeed * dt`, `phi -= ly * orbitSpeed * dt * 0.8`,
`ry = axes[1] ?? 0`, `radius += -ry * dollySpeed * dt * 0.6`. -/
def applyGamepad (gp : Gamepad) (dt : ℝ) (s : Spherical) : Spherical :=
  let lx := axisOr gp.axes 2 0
  let ly := axisOr gp.axes 3 1
  let orbitScale := XR_NAV.orbitSpeed * dt
  let ry := (gp.axes.get? 1).getD 0
  { radius := s.radius + -ry * XR_NAV.dollySpeed * dt * 0.6
    phi := s.phi - ly * orbitScale * 0.8
    theta := s.theta - lx * orbitScale }

/-- The whole `inputSources.forEach` loop: sources without a gamepad are
skipped (`if (!gp) return`); gamepad contributions are applied in
enumeration order. -/
def applyInputSources (sources : List (Option Gamepad)) (dt : ℝ) (s : Spherical) : Spherical :=
  sources.foldl (fun acc src =>
    match src with
    | none => acc
    | some gp => applyGamepad gp dt acc) s

/-- The per-hand `userData` record of `main.js`: `isPinching` (set by the
`pinchstart` / `pinchend` listeners), `lastPos`, `currPos` (lazily created
zero vectors) and the `init` flag. -/
structure HandData where
  isPinching : Bool
  lastPos : Vector3
  currPos : Vector3
  init : Bool

/-- A freshly constructed hand: not pinching, vectors at the origin,
not yet initialised (`userData.init` undefined). -/
def HandData.fresh : HandData :=
  { isPinching := false, lastPos := ⟨0, 0, 0⟩, currPos := ⟨0, 0, 0⟩, init := false }

/-- The per-hand observation step of `updateXROrbit` (lines 180-189):
`getWorldPosition` into `currPos`; on first observation
(`!h.userData.init`) also copy `currPos` into `lastPos` and set `init`. -/
def observeHand (h : HandData) (p : Vector3) : HandData :=
  let h := { h with currPos := p }
  if h.init then h else { h with lastPos := h.currPos, init := true }

/-- The two tracked hands. -/
structure HandsState where
  left : HandData
  right : HandData

/-- The gesture branches of `updateXROrbit` (lines 191-207).
`if (leftPinch ^ rightPinch)`: one-hand orbit — `delta = currPos - lastPos`
of the pinching hand, `theta -= delta.x * 1.2`, `phi -= delta.y * 1.2`,
and that hand's `lastPos` is overwritten with `currPos`.
`if (leftPinch && rightPinch)`: two-hand dolly —
`radius += (avgCurr.z - avgLast.z) * 10.0` and both `lastPos` are
overwritten.  The two `if`s are evaluated in sequence on the same state. -/
def updateHandGestures (hs : HandsState) (s : Spherical) : HandsState × Spherical :=
  let leftPinch := hs.left.isPinching
  let rightPinch := hs.right.isPinching
  let step1 : HandsState × Spherical :=
    if Bool.xor leftPinch rightPinch then
      let h := if leftPinch then hs.left else hs.right
      let delta := h.currPos.sub h.lastPos
      let s1 : Spherical :=
        { radius := s.radius
          phi := s.phi - delta.y * 1.2
          theta := s.theta - delta.x * 1.2 }
      let h1 := { h with lastPos := h.currPos }
      (if leftPinch then { hs with left := h1 } else { hs with right := h1 }, s1)
    else (hs, s)
  let hs1 := step1.1
  let s1 := step1.2
  if leftPinch && rightPinch then
    let avg := (Vector3.add hs1.left.currPos hs1.right.currPos).multiplyScalar 0.5
    let lastAvg := (Vector3.add hs1.left.lastPos hs1.right.lastPos).multiplyScalar 0.5
    let s2 : Spherical :=
      { radius := s1.radius + (avg.z - lastAvg.z) * 10.0
        phi := s1.phi
        theta := s1.theta }
    ( { left := { hs1.left with lastPos := hs1.left.currPos }
        right := { hs1.right with lastPos := hs1.right.currPos } }, s2)
  else (hs1, s1)

/-- The per-frame XR input sample: gamepads of the input sources and the
world positions of the two hands. -/
structure Frame where
  sources : List (Option Gamepad)
  leftPos : Vector3
  rightPos : Vector3

/-- `updateXROrbit(dt)` of `main.js`: early return when there is no
session; otherwise the gamepad loop, then the hand observation loop, then
the gesture branches, then `applySphericalToRig()`. -/
def updateXROrbit (sessionPresent : Bool) (f : Frame) (dt : ℝ)
    (w : World) (hs : HandsState) : World × HandsState :=
  if !sessionPresent then (w, hs)
  else
    let s := applyInputSources f.sources dt w.spherical
    let hs1 : HandsState := ⟨observeHand hs.left f.leftPos, observeHand hs.right f.rightPos⟩
    let p := updateHandGestures hs1 s
    (applySphericalToRig { w with spherical := p.2 }, p.1)

/-- The frame-delta computation of the render loop (line 216):
`dt = Math.min(0.05, (now - lastT) / 1000)`, timestamps in milliseconds. -/
def frameDt (now lastT : ℝ) : ℝ := min 0.05 ((now - lastT) / 1000)

/-! ### Basic facts about `clamp` -/

theorem clamp_mem (x lo hi : ℝ) (h : lo ≤ hi) : lo ≤ clamp x lo hi ∧ clamp x lo hi ≤ hi :=
  ⟨le_max_left _ _, max_le h (min_le_left _ _)⟩

theorem clamp_of_mem {x lo hi : ℝ} (h1 : lo ≤ x) (h2 : x ≤ hi) : clamp x lo hi = x := by
  unfold clamp
  rw [min_eq_right h2, max_eq_right h1]

theorem minPhi_le_maxPhi : XR_NAV.minPhi ≤ XR_NAV.maxPhi := by
  have h := Real.pi_gt_three
  simp only [XR_NAV]
  linarith

/-- Radius and phi of the spherical state after `applySphericalToRig` lie in
the configured bounds. -/
theorem spherical_bounds_after_apply (w : World) :
    XR_NAV.minRadius ≤ (applySphericalToRig w).spherical.radius ∧
    (applySphericalToRig w).spherical.radius ≤ XR_NAV.maxRadius ∧
    XR_NAV.minPhi ≤ (applySphericalToRig w).spherical.phi ∧
    (applySphericalToRig w).spherical.phi ≤ XR_NAV.maxPhi := by
  have hr := clamp_mem w.spherical.radius XR_NAV.minRadius XR_NAV.maxRadius
    (by simp only [XR_NAV]; norm_num)
  have hp := clamp_mem w.spherical.phi XR_NAV.minPhi XR_NAV.maxPhi minPhi_le_maxPhi
  exact ⟨hr.1, hr.2, hp.1, hp.2⟩

/-- C1 — Clamp invariant: after `applySphericalToRig`, the state's radius lies
in `[minRadius, maxRadius] = [1.5, 50]` and its phi in
`[minPhi, maxPhi] = [0.01, π - 0.01]`, both inclusive, for every input state;
and the same bounds hold after every per-frame `updateXROrbit` with a live
session, since clamping runs unconditionally before projection. -/
theorem clamp_invariant (w : World) :
    (XR_NAV.minRadius ≤ (applySphericalToRig w).spherical.radius ∧
      (applySphericalToRig w).spherical.radius ≤ XR_NAV.maxRadius ∧
      XR_NAV.minPhi ≤ (applySphericalToRig w).spherical.phi ∧
      (applySphericalToRig w).spherical.phi ≤ XR_NAV.maxPhi) ∧
    ∀ (f : Frame) (dt : ℝ) (hs : HandsState),
      XR_NAV.minRadius ≤ (updateXROrbit true f dt w hs).1.spherical.radius ∧
      (updateXROrbit true f dt w hs).1.spherical.radius ≤ XR_NAV.maxRadius ∧
      XR_NAV.minPhi ≤ (updateXROrbit true f dt w hs).1.spherical.phi ∧
      (updateXROrbit true f dt w hs).1.spherical.phi ≤ XR_NAV.maxPhi := by
  refine ⟨spherical_bounds_after_apply w, fun f dt hs => ?_⟩
  have hupd : (updateXROrbit true f dt w hs).1 =
      applySphericalToRig { w with
        spherical := (updateHandGestures
          ⟨observeHand hs.left f.leftPos, observeHand hs.right f.rightPos⟩
          (applyInputSources f.sources dt w.spherical)).2 } := rfl
  rw [hupd]
  exact spherical_bounds_after_apply _

/-- C5 counterexample: `applySphericalToRig` does have a side effect beyond
writing the rig — it writes the clamped radius back into the orbit state.
Starting from radius `100`, the state's radius afterwards is `50`, not `100`. -/
theorem applySpherical_mutates_state :
    (applySphericalToRig ⟨⟨100, 1, 0⟩, ⟨⟨0, 0, 0⟩, ⟨0, 0, 0⟩⟩, target⟩).spherical.radius ≠ 100 := by
  show clamp 100 XR_NAV.minRadius XR_NAV.maxRadius ≠ 100
  simp only [clamp, XR_NAV]
  norm_num [min_def, max_def]

/-- C5 amended: `applySphericalToRig` writes the rig's position and
orientation and additionally writes the clamped radius and phi back into the
orbit state; theta and the pivot are unchanged, and there are no other
effects. -/
theorem applySpherical_frame_condition (w : World) :
    (applySphericalToRig w).spherical.theta = w.spherical.theta ∧
    (applySphericalToRig w).target = w.target ∧
    (applySphericalToRig w).spherical.radius
      = clamp w.spherical.radius XR_NAV.minRadius XR_NAV.maxRadius ∧
    (applySphericalToRig w).spherical.phi
      = clamp w.spherical.phi XR_NAV.minPhi XR_NAV.maxPhi ∧
    (applySphericalToRig w).rig.position
      = (Vector3.setFromSpherical (applySphericalToRig w).spherical).add w.target ∧
    (applySphericalToRig w).rig.lookTarget = w.target :=
  ⟨rfl, rfl, rfl, rfl, rfl, rfl⟩

/-- C7 — Gesture exclusivity: with exactly one pinch flag set, only the
single-hand orbit branch runs (radius is untouched, theta and phi move by the
pinching hand's delta); with both set, only the two-hand dolly branch runs
(theta and phi are untouched, radius moves by the average z-delta). -/
theorem gesture_exclusivity (hs : HandsState) (s : Spherical) :
    (hs.left.isPinching = true → hs.right.isPinching = false →
      (updateHandGestures hs s).2.radius = s.radius ∧
      (updateHandGestures hs s).2.theta
        = s.theta - (hs.left.currPos.x - hs.left.lastPos.x) * 1.2 ∧
      (updateHandGestures hs s).2.phi
        = s.phi - (hs.left.currPos.y - hs.left.lastPos.y) * 1.2) ∧
    (hs.left.isPinching = false → hs.right.isPinching = true →
      (updateHandGestures hs s).2.radius = s.radius ∧
      (updateHandGestures hs s).2.theta
        = s.theta - (hs.right.currPos.x - hs.right.lastPos.x) * 1.2 ∧
      (updateHandGestures hs s).2.phi
        = s.phi - (hs.right.currPos.y - hs.right.lastPos.y) * 1.2) ∧
    (hs.left.isPinching = true → hs.right.isPinching = true →
      (updateHandGestures hs s).2.theta = s.theta ∧
      (updateHandGestures hs s).2.phi = s.phi ∧
      (updateHandGestures hs s).2.radius = s.radius +
        ((hs.left.currPos.z + hs.right.currPos.z) * 0.5 -
          (hs.left.lastPos.z + hs.right.lastPos.z) * 0.5) * 10.0) := by
  refine ⟨fun hl hr => ?_, fun hl hr => ?_, fun hl hr => ?_⟩ <;>
    simp [updateHandGestures, hl, hr, Vector3.sub, Vector3.add, Vector3.multiplyScalar]

/-- Left hand mid-pinch with some accumulated displacement. -/
def handL : HandData :=
  { isPinching := true, lastPos := ⟨0, 0, 0⟩, currPos := ⟨1, 2, 3⟩, init := true }

/-- Right hand, observed but not pinching. -/
def handR : HandData :=
  { isPinching := false, lastPos := ⟨0, 0, 0⟩, currPos := ⟨0, 0, 1⟩, init := true }

theorem gesture_exclusivity_witness :
    (updateHandGestures ⟨handL, handR⟩ ⟨10, 1, 0⟩).2.radius = 10 ∧
    (updateHandGestures ⟨handL, { handR with isPinching := true }⟩ ⟨10, 1, 0⟩).2.theta = 0 :=
  ⟨((gesture_exclusivity ⟨handL, handR⟩ ⟨10, 1, 0⟩).1 rfl rfl).1,
    ((gesture_exclusivity ⟨handL, { handR with isPinching := true }⟩ ⟨10, 1, 0⟩).2.2 rfl rfl).1⟩

/-- C2 (code evaluation): the controller update of `main.js` applies raw
axis values with no dead-zone check anywhere.  A two-axis gamepad reporting
`[0.05, 0]` — both orbit-axis magnitudes at the claimed 0.05 threshold —
with `dt = 0.05` changes theta by `-0.05 * 1.4 * 0.05 = -0.0035`. -/
theorem no_dead_zone_in_controller_update :
    (applyInputSources [some ⟨[0.05, 0]⟩] 0.05 ⟨10, 1, 0⟩).theta = -0.0035 ∧
    (-0.0035 : ℝ) ≠ (0 : ℝ) := by
  refine ⟨?_, by norm_num⟩
  show (applyGamepad ⟨[0.05, 0]⟩ 0.05 ⟨10, 1, 0⟩).theta = -0.0035
  simp only [applyGamepad, axisOr, XR_NAV, List.get?]
  norm_num

/-- C9 counterexample: `frameDt` applies no lower clamp — a timestamp pair
with `now < lastT` yields a negative dt (`frameDt 0 1000 = -1`). -/
theorem frameDt_can_be_negative : frameDt 0 1000 < 0 := by
  rw [frameDt]
  norm_num [min_def]

/-- C9 amended: the frame delta is capped at 0.05 for every pair of
timestamps, and it is non-negative whenever the current timestamp is at
least the previous one; the code performs no clamp at zero. -/
theorem frameDt_bounds (now lastT : ℝ) :
    frameDt now lastT ≤ 0.05 ∧ (lastT ≤ now → 0 ≤ frameDt now lastT) := by
  refine ⟨min_le_left _ _, fun h => ?_⟩
  exact le_min (by norm_num) (div_nonneg (by linarith) (by norm_num))

theorem frameDt_bounds_witness :
    (0 : ℝ) ≤ 16 ∧ 0 ≤ frameDt 16 0 ∧ frameDt 16 0 ≤ 0.05 :=
  ⟨by norm_num, (frameDt_bounds 16 0).2 (by norm_num), (frameDt_bounds 16 0).1⟩

/-- C10: on a gamepad that reports only two axes, `axes[1]` is both the
fallback pitch axis and the dolly axis, so a single nonzero value there
changes phi and radius in the same frame; on a four-axis gamepad, `axes[1]`
enters only the radius update, while phi and theta are driven by `axes[3]`
and `axes[2]`. -/
theorem dolly_pitch_axis_coupling (a0 a1 dt : ℝ) (s : Spherical)
    (hdt : 0 < dt) (ha : a1 ≠ 0) :
    ((applyGamepad ⟨[a0, a1]⟩ dt s).phi ≠ s.phi ∧
      (applyGamepad ⟨[a0, a1]⟩ dt s).radius ≠ s.radius) ∧
    ∀ (b0 b1 b2 b3 : ℝ),
      (applyGamepad ⟨[b0, b1, b2, b3]⟩ dt s).radius = s.radius + -b1 * 3.0 * dt * 0.6 ∧
      (applyGamepad ⟨[b0, b1, b2, b3]⟩ dt s).phi = s.phi - b3 * (1.4 * dt) * 0.8 ∧
      (applyGamepad ⟨[b0, b1, b2, b3]⟩ dt s).theta = s.theta - b2 * (1.4 * dt) := by
  constructor
  · constructor
    · show s.phi - a1 * (XR_NAV.orbitSpeed * dt) * 0.8 ≠ s.phi
      intro h
      rw [sub_eq_self] at h
      have hne : a1 * (XR_NAV.orbitSpeed * dt) * 0.8 ≠ 0 := by
        simp only [XR_NAV]
        positivity
      exact hne h
    · show s.radius + -a1 * XR_NAV.dollySpeed * dt * 0.6 ≠ s.radius
      intro h
      rw [add_right_eq_self] at h
      have hne : -a1 * XR_NAV.dollySpeed * dt * 0.6 ≠ 0 := by
        simp only [XR_NAV]
        have : -a1 ≠ 0 := neg_ne_zero.mpr ha
        positivity
      exact hne h
  · intro b0 b1 b2 b3
    refine ⟨rfl, ?_, ?_⟩ <;> rfl

theorem dolly_pitch_axis_coupling_witness :
    (0 : ℝ) < 0.05 ∧ (1 : ℝ) ≠ 0 ∧
    (applyGamepad ⟨[0, 1]⟩ 0.05 ⟨10, 1, 0⟩).phi ≠ 1 :=
  ⟨by norm_num, by norm_num,
    (dolly_pitch_axis_coupling 0 1 0.05 ⟨10, 1, 0⟩ (by norm_num) (by norm_num)).1.1⟩

/-- The hand-tracking section of `updateXROrbit` (lines 176-207 of
`main.js`): observe both hands, then run the gesture branches.
`updateXROrbit` is definitionally this section sandwiched between the
gamepad loop and `applySphericalToRig`. -/
def handSection (hs : HandsState) (lp rp : Vector3) (s : Spherical) :
    HandsState × Spherical :=
  updateHandGestures ⟨observeHand hs.left lp, observeHand hs.right rp⟩ s

/-- The `pinchstart` / `pinchend` listeners of `main.js`: they only set
`userData.isPinching`; in particular `pinchend` does not reset `lastPos`. -/
def setPinch (h : HandData) (b : Bool) : HandData := { h with isPinching := b }

/-- Both hands fresh, before their first observation. -/
def hs0 : HandsState := ⟨HandData.fresh, HandData.fresh⟩

/-- C8 counterexample: frame 1 observes the (not yet pinching) left hand at
the origin; the hand then moves to `(1,0,0)` and a pinch starts; frame 2 —
the first frame of that pinch — already applies the whole accumulated
displacement, jumping theta from `0` to `-1.2`: the first frame's delta is
not zero. -/
theorem pinch_start_jump :
    (handSection
        ⟨setPinch (handSection hs0 ⟨0, 0, 0⟩ ⟨0, 0, 0⟩ ⟨10, 1, 0⟩).1.left true,
          (handSection hs0 ⟨0, 0, 0⟩ ⟨0, 0, 0⟩ ⟨10, 1, 0⟩).1.right⟩
        ⟨1, 0, 0⟩ ⟨0, 0, 0⟩
        (handSection hs0 ⟨0, 0, 0⟩ ⟨0, 0, 0⟩ ⟨10, 1, 0⟩).2).2.theta
      ≠ ((handSection hs0 ⟨0, 0, 0⟩ ⟨0, 0, 0⟩ ⟨10, 1, 0⟩).2).theta := by
  simp only [handSection, hs0, HandData.fresh, observeHand, updateHandGestures, setPinch,
    Vector3.sub]
  norm_num

/-- C8 amended: on the first observation of the hands, `lastPos` is seeded
to the current position, so a frame in which both hands are first observed
changes nothing in the orbit state, whatever the pinch flags — but `lastPos`
is only ever rewritten inside the pinch branches, never reset when a pinch
ends, so a pinch that begins after the hand moved since the last pinch frame
(or since first observation) applies that whole displacement on its first
frame. -/
theorem first_observation_no_jump (l r : HandData) (lp rp : Vector3) (s : Spherical)
    (hl : l.init = false) (hr : r.init = false) :
    (handSection ⟨l, r⟩ lp rp s).2 = s ∧
    (handSection ⟨l, r⟩ lp rp s).1.left.lastPos = lp ∧
    (handSection ⟨l, r⟩ lp rp s).1.right.lastPos = rp := by
  rcases hpl : l.isPinching with _ | _ <;> rcases hpr : r.isPinching with _ | _ <;>
    simp [handSection, observeHand, updateHandGestures, hl, hr, hpl, hpr,
      Vector3.sub, Vector3.add, Vector3.multiplyScalar]

theorem first_observation_no_jump_witness :
    (handSection ⟨HandData.fresh, HandData.fresh⟩ ⟨1, 2, 3⟩ ⟨4, 5, 6⟩ ⟨10, 1, 0⟩).2
      = ⟨10, 1, 0⟩ :=
  (first_observation_no_jump HandData.fresh HandData.fresh ⟨1, 2, 3⟩ ⟨4, 5, 6⟩
    ⟨10, 1, 0⟩ rfl rfl).1

/-- Radius produced by `Spherical.setFromVector3` is always the Euclidean
norm of the input, whichever branch is taken. -/
theorem setFromVector3_radius (v : Vector3) :
    (Spherical.setFromVector3 v).radius
      = Real.sqrt (v.x * v.x + v.y * v.y + v.z * v.z) := by
  unfold Spherical.setFromVector3
  by_cases h : Real.sqrt (v.x * v.x + v.y * v.y + v.z * v.z) = 0 <;> simp [h]

/-- The top-level application state relevant to the Desktop/Immersive mode
switch in `main.js`: the orbit state and rig, the per-hand records, the
desktop camera's world position, whether an immersive session is presenting
(`renderer.xr.isPresenting`), and the `enabled` flag of the desktop
OrbitControls. -/
structure AppState where
  spherical : Spherical
  rig : Rig
  hands : HandsState
  cameraPos : Vector3
  presenting : Bool
  controlsEnabled : Bool

/-- The state after module initialization of `main.js`: camera placed at
`(-5, 5, 12)`, the orbit state seeded once by the `syncSpherical` IIFE,
hands freshly constructed, not presenting, and the desktop controls
enabled — nothing in the file ever writes `controls.enabled`. -/
def initAppState : AppState :=
  { spherical := syncSpherical initialCameraPosition
    rig := ⟨⟨0, 0, 0⟩, ⟨0, 0, 0⟩⟩
    hands := ⟨HandData.fresh, HandData.fresh⟩
    cameraPos := initialCameraPosition
    presenting := false
    controlsEnabled := true }

/-- Events driving the mode-switch behaviour of `main.js`. -/
inductive AppEvent where
  | desktopDrag (p : Vector3)
  | sessionStart
  | sessionEnd
  | xrFrame (f : Frame) (dt : ℝ)

/-- One event step of `main.js`.  `sessionStart` / `sessionEnd` model the
host toggling `renderer.xr.isPresenting`; `main.js` registers no handler
for these signals, so nothing else changes — in particular the orbit state
is not re-seeded and `controls.enabled` is not written.  `desktopDrag p`
models the library OrbitControls moving the camera to `p`, which takes
effect through the `controls.update()` call that the render loop performs
only in its non-presenting branch.  `xrFrame` is one render-loop callback
in the presenting branch (`updateXROrbit`). -/
def stepApp (a : AppState) : AppEvent → AppState
  | .desktopDrag p =>
      if a.presenting then a
      else if a.controlsEnabled then { a with cameraPos := p } else a
  | .sessionStart => { a with presenting := true }
  | .sessionEnd => { a with presenting := false }
  | .xrFrame f dt =>
      if a.presenting then
        let r := updateXROrbit true f dt ⟨a.spherical, a.rig, target⟩ a.hands
        { a with spherical := r.1.spherical, rig := r.1.rig, hands := r.2 }
      else a

/-- C6 counterexample: drag the desktop camera from `(-5,5,12)` to
`(10,2,0)`, then start an immersive session.  At session start the orbit
state still encodes the stale seed (radius `13`, from the initial camera
position) rather than the current camera position (which would seed radius
`11`), and the desktop controls are still enabled — the session transition
neither re-seeds the orbit state nor disables the pointer-drag navigation. -/
theorem immersive_entry_no_reseed :
    (stepApp (stepApp initAppState (.desktopDrag ⟨10, 2, 0⟩)) .sessionStart).presenting
        = true ∧
    (stepApp (stepApp initAppState (.desktopDrag ⟨10, 2, 0⟩)) .sessionStart).controlsEnabled
        = true ∧
    (stepApp (stepApp initAppState (.desktopDrag ⟨10, 2, 0⟩)) .sessionStart).spherical.radius
        = 13 ∧
    (syncSpherical
        (stepApp (stepApp initAppState (.desktopDrag ⟨10, 2, 0⟩)) .sessionStart).cameraPos).radius
        = 11 ∧
    (13 : ℝ) ≠ (11 : ℝ) := by
  have hstep : stepApp (stepApp initAppState (.desktopDrag ⟨10, 2, 0⟩)) .sessionStart
      = { initAppState with cameraPos := ⟨10, 2, 0⟩, presenting := true } := rfl
  rw [hstep]
  refine ⟨rfl, rfl, ?_, ?_, by norm_num⟩
  · show (syncSpherical initialCameraPosition).radius = 13
    rw [syncSpherical, setFromVector3_radius]
    show Real.sqrt ((-5 - -1) * (-5 - -1) + (5 - 2) * (5 - 2) + (12 - 0) * (12 - 0)) = 13
    rw [show ((-5 - -1) * (-5 - -1) + (5 - 2) * (5 - 2) + (12 - 0) * (12 - 0) : ℝ)
        = 13 ^ 2 by norm_num]
    exact Real.sqrt_sq (by norm_num)
  · rw [syncSpherical, setFromVector3_radius]
    show Real.sqrt ((10 - -1) * (10 - -1) + (2 - 2) * (2 - 2) + (0 - 0) * (0 - 0)) = 11
    rw [show ((10 - -1) * (10 - -1) + (2 - 2) * (2 - 2) + (0 - 0) * (0 - 0) : ℝ)
        = 11 ^ 2 by norm_num]
    exact Real.sqrt_sq (by norm_num)

/-- C6 amended: the orbit state is seeded exactly once, at script
initialization, from the camera's initial world position; a session start
only makes the presenting flag true — it neither re-seeds the orbit state
nor disables the desktop controls (no handler exists) — and the two input
schemes are kept apart only by the render loop's branch: while presenting,
the desktop drag path is inert. -/
theorem immersive_entry_behavior (a : AppState) (p : Vector3) :
    (stepApp a .sessionStart).spherical = a.spherical ∧
    (stepApp a .sessionStart).controlsEnabled = a.controlsEnabled ∧
    (stepApp a .sessionStart).presenting = true ∧
    (stepApp a .sessionStart).cameraPos = a.cameraPos ∧
    initAppState.spherical = syncSpherical initialCameraPosition ∧
    initAppState.controlsEnabled = true ∧
    (a.presenting = true → stepApp a (.desktopDrag p) = a) := by
  refine ⟨rfl, rfl, rfl, rfl, rfl, rfl, fun hp => ?_⟩
  simp [stepApp, hp]

theorem immersive_entry_behavior_witness :
    stepApp (stepApp initAppState .sessionStart) (.desktopDrag ⟨0, 0, 0⟩)
      = stepApp initAppState .sessionStart :=
  (immersive_entry_behavior (stepApp initAppState .sessionStart) ⟨0, 0, 0⟩).2.2.2.2.2.2 rfl

/-! ### The spherical round trip -/

/-- Phi produced by `Spherical.setFromVector3` when the radius is nonzero. -/
theorem setFromVector3_of_ne (v : Vector3)
    (h : Real.sqrt (v.x * v.x + v.y * v.y + v.z * v.z) ≠ 0) :
    Spherical.setFromVector3 v =
      ⟨Real.sqrt (v.x * v.x + v.y * v.y + v.z * v.z),
        Real.arccos (clamp (v.y / Real.sqrt (v.x * v.x + v.y * v.y + v.z * v.z)) (-1) 1),
        atan2 v.x v.z⟩ := by
  show (if Real.sqrt (v.x * v.x + v.y * v.y + v.z * v.z) = 0 then (⟨0, 0, 0⟩ : Spherical)
      else ⟨Real.sqrt (v.x * v.x + v.y * v.y + v.z * v.z),
        Real.arccos (clamp (v.y / Real.sqrt (v.x * v.x + v.y * v.y + v.z * v.z)) (-1) 1),
        atan2 v.x v.z⟩) = _
  rw [if_neg h]

/-- Core round-trip identity: converting a vector to spherical coordinates
and back is the identity, given a positive radius and a polar angle strictly
between `0` and `π` (which rules out the degenerate vertical axis). -/
theorem setFromVector3_roundTrip (v : Vector3)
    (hr : 0 < (Spherical.setFromVector3 v).radius)
    (hphi1 : 0 < (Spherical.setFromVector3 v).phi)
    (hphi2 : (Spherical.setFromVector3 v).phi < Real.pi) :
    Vector3.setFromSpherical (Spherical.setFromVector3 v) = v := by
  have hrne : Real.sqrt (v.x * v.x + v.y * v.y + v.z * v.z) ≠ 0 := by
    intro h0
    rw [setFromVector3_radius, h0] at hr
    exact lt_irrefl 0 hr
  have hq0 : 0 < v.x * v.x + v.y * v.y + v.z * v.z := by
    by_contra h
    push_neg at h
    exact hrne (Real.sqrt_eq_zero_of_nonpos h)
  have hr0 : 0 < Real.sqrt (v.x * v.x + v.y * v.y + v.z * v.z) := Real.sqrt_pos.mpr hq0
  have hsq : Real.sqrt (v.x * v.x + v.y * v.y + v.z * v.z) ^ 2
      = v.x * v.x + v.y * v.y + v.z * v.z := Real.sq_sqrt hq0.le
  have habs : |v.y| ≤ Real.sqrt (v.x * v.x + v.y * v.y + v.z * v.z) :=
    Real.abs_le_sqrt (by nlinarith [mul_self_nonneg v.x, mul_self_nonneg v.z])
  have hy1 : -1 ≤ v.y / Real.sqrt (v.x * v.x + v.y * v.y + v.z * v.z) := by
    rw [le_div_iff₀ hr0]
    have := (abs_le.mp habs).1
    linarith
  have hy2 : v.y / Real.sqrt (v.x * v.x + v.y * v.y + v.z * v.z) ≤ 1 := by
    rw [div_le_one hr0]
    exact (abs_le.mp habs).2
  have hclamp : clamp (v.y / Real.sqrt (v.x * v.x + v.y * v.y + v.z * v.z)) (-1) 1
      = v.y / Real.sqrt (v.x * v.x + v.y * v.y + v.z * v.z) := clamp_of_mem hy1 hy2
  have hrepr : Spherical.setFromVector3 v =
      ⟨Real.sqrt (v.x * v.x + v.y * v.y + v.z * v.z),
        Real.arccos (v.y / Real.sqrt (v.x * v.x + v.y * v.y + v.z * v.z)),
        atan2 v.x v.z⟩ := by
    rw [setFromVector3_of_ne v hrne, hclamp]
  have hcos : Real.cos (Real.arccos (v.y / Real.sqrt (v.x * v.x + v.y * v.y + v.z * v.z)))
      = v.y / Real.sqrt (v.x * v.x + v.y * v.y + v.z * v.z) := Real.cos_arccos hy1 hy2
  have hS0 : (0 : ℝ) ≤ v.x * v.x + v.z * v.z := by
    nlinarith [mul_self_nonneg v.x, mul_self_nonneg v.z]
  have hsin : Real.sin (Real.arccos (v.y / Real.sqrt (v.x * v.x + v.y * v.y + v.z * v.z)))
      = Real.sqrt (v.x * v.x + v.z * v.z)
        / Real.sqrt (v.x * v.x + v.y * v.y + v.z * v.z) := by
    rw [Real.sin_arccos, div_pow, hsq,
      show (1 : ℝ) - v.y ^ 2 / (v.x * v.x + v.y * v.y + v.z * v.z)
        = (v.x * v.x + v.z * v.z) / (v.x * v.x + v.y * v.y + v.z * v.z) by
        rw [eq_div_iff (ne_of_gt hq0), sub_mul, div_mul_cancel₀ _ (ne_of_gt hq0)]
        ring,
      Real.sqrt_div hS0]
  have hsinpos : 0 < Real.sin
      (Real.arccos (v.y / Real.sqrt (v.x * v.x + v.y * v.y + v.z * v.z))) := by
    have h := Real.sin_pos_of_pos_of_lt_pi hphi1 hphi2
    rw [hrepr] at h
    exact h
  have hSpos : 0 < v.x * v.x + v.z * v.z := by
    rw [hsin] at hsinpos
    rcases div_pos_iff.mp hsinpos with ⟨hnum, _⟩ | ⟨_, hden⟩
    · exact Real.sqrt_pos.mp hnum
    · linarith
  have hSne : Real.sqrt (v.x * v.x + v.z * v.z) ≠ 0 :=
    ne_of_gt (Real.sqrt_pos.mpr hSpos)
  have hc : (⟨v.z, v.x⟩ : ℂ) ≠ 0 := by
    intro h
    have hre : v.z = 0 := by simpa using congrArg Complex.re h
    have him : v.x = 0 := by simpa using congrArg Complex.im h
    rw [hre, him] at hSpos
    norm_num at hSpos
  have habsc : Complex.abs ⟨v.z, v.x⟩ = Real.sqrt (v.x * v.x + v.z * v.z) := by
    rw [Complex.abs_apply, Complex.normSq_mk]
    congr 1
    ring
  have hsinT : Real.sin (atan2 v.x v.z)
      = v.x / Real.sqrt (v.x * v.x + v.z * v.z) := by
    rw [atan2, Complex.sin_arg, habsc]
  have hcosT : Real.cos (atan2 v.x v.z)
      = v.z / Real.sqrt (v.x * v.x + v.z * v.z) := by
    rw [atan2, Complex.cos_arg hc, habsc]
  rw [hrepr]
  show Vector3.mk
      (Real.sin (Real.arccos (v.y / Real.sqrt (v.x * v.x + v.y * v.y + v.z * v.z)))
        * Real.sqrt (v.x * v.x + v.y * v.y + v.z * v.z) * Real.sin (atan2 v.x v.z))
      (Real.cos (Real.arccos (v.y / Real.sqrt (v.x * v.x + v.y * v.y + v.z * v.z)))
        * Real.sqrt (v.x * v.x + v.y * v.y + v.z * v.z))
      (Real.sin (Real.arccos (v.y / Real.sqrt (v.x * v.x + v.y * v.y + v.z * v.z)))
        * Real.sqrt (v.x * v.x + v.y * v.y + v.z * v.z) * Real.cos (atan2 v.x v.z))
      = v
  rw [hsin, hcos, hsinT, hcosT]
  apply Vector3.ext
  · field_simp
  · exact div_mul_cancel₀ v.y hrne
  · field_simp

/-- Seeding from a camera position and immediately clamping and projecting
reproduces the camera position exactly, whenever the derived radius and phi
lie within the clamp bounds. -/
theorem seed_roundTrip_aux (camPos : Vector3) (rig0 : Rig)
    (hr1 : XR_NAV.minRadius ≤ (syncSpherical camPos).radius)
    (hr2 : (syncSpherical camPos).radius ≤ XR_NAV.maxRadius)
    (hp1 : XR_NAV.minPhi ≤ (syncSpherical camPos).phi)
    (hp2 : (syncSpherical camPos).phi ≤ XR_NAV.maxPhi) :
    (applySphericalToRig ⟨syncSpherical camPos, rig0, target⟩).rig.position = camPos := by
  have hr : 0 < (Spherical.setFromVector3 (camPos.sub target)).radius :=
    lt_of_lt_of_le (by norm_num [XR_NAV]) hr1
  have hphi1 : 0 < (Spherical.setFromVector3 (camPos.sub target)).phi :=
    lt_of_lt_of_le (by norm_num [XR_NAV]) hp1
  have hphi2 : (Spherical.setFromVector3 (camPos.sub target)).phi < Real.pi :=
    lt_of_le_of_lt hp2 (by simp only [XR_NAV]; linarith [Real.pi_gt_three])
  show (Vector3.setFromSpherical
      ⟨clamp (syncSpherical camPos).radius XR_NAV.minRadius XR_NAV.maxRadius,
        clamp (syncSpherical camPos).phi XR_NAV.minPhi XR_NAV.maxPhi,
        (syncSpherical camPos).theta⟩).add target = camPos
  rw [clamp_of_mem hr1 hr2, clamp_of_mem hp1 hp2]
  show (Vector3.setFromSpherical (Spherical.setFromVector3 (camPos.sub target))).add target
      = camPos
  rw [setFromVector3_roundTrip (camPos.sub target) hr hphi1 hphi2]
  apply Vector3.ext <;> simp [Vector3.add, Vector3.sub]

/-- C3 — Seed continuity: for a camera position distinct from the pivot,
deriving the orbit state from it (`syncSpherical`) and immediately running
`applySphericalToRig` puts the rig exactly at the original camera position
(real arithmetic; hence within any floating-point tolerance), provided the
derived radius and phi lie within the clamp bounds. -/
theorem seed_continuity (camPos : Vector3) (rig0 : Rig)
    (hne : camPos ≠ target)
    (hr1 : XR_NAV.minRadius ≤ (syncSpherical camPos).radius)
    (hr2 : (syncSpherical camPos).radius ≤ XR_NAV.maxRadius)
    (hp1 : XR_NAV.minPhi ≤ (syncSpherical camPos).phi)
    (hp2 : (syncSpherical camPos).phi ≤ XR_NAV.maxPhi) :
    (applySphericalToRig ⟨syncSpherical camPos, rig0, target⟩).rig.position = camPos :=
  seed_roundTrip_aux camPos rig0 hr1 hr2 hp1 hp2

/-! ### The concrete desktop-to-immersive handoff scenario -/

/-- The orbit state seeded at initialization has radius
`|(-5,5,12) - (-1,2,0)| = |(-4,3,12)| = 13`. -/
theorem seed_radius_initial : (syncSpherical initialCameraPosition).radius = 13 := by
  rw [syncSpherical, setFromVector3_radius]
  show Real.sqrt ((-5 - -1) * (-5 - -1) + (5 - 2) * (5 - 2) + (12 - 0) * (12 - 0)) = 13
  rw [show ((-5 - -1) * (-5 - -1) + (5 - 2) * (5 - 2) + (12 - 0) * (12 - 0) : ℝ)
      = 13 ^ 2 by norm_num]
  exact Real.sqrt_sq (by norm_num)

/-- The orbit state seeded at initialization has phi `arccos (3/13)`. -/
theorem seed_phi_initial : (syncSpherical initialCameraPosition).phi
    = Real.arccos (3 / 13) := by
  have h13 : Real.sqrt
      (((initialCameraPosition.sub target).x * (initialCameraPosition.sub target).x
        + (initialCameraPosition.sub target).y * (initialCameraPosition.sub target).y
        + (initialCameraPosition.sub target).z * (initialCameraPosition.sub target).z)) = 13 := by
    show Real.sqrt ((-5 - -1) * (-5 - -1) + (5 - 2) * (5 - 2) + (12 - 0) * (12 - 0)) = 13
    rw [show ((-5 - -1) * (-5 - -1) + (5 - 2) * (5 - 2) + (12 - 0) * (12 - 0) : ℝ)
        = 13 ^ 2 by norm_num]
    exact Real.sqrt_sq (by norm_num)
  rw [syncSpherical, setFromVector3_of_ne _ (by rw [h13]; norm_num)]
  show Real.arccos (clamp ((5 - 2) / Real.sqrt
      ((-5 - -1) * (-5 - -1) + (5 - 2) * (5 - 2) + (12 - 0) * (12 - 0))) (-1) 1)
      = Real.arccos (3 / 13)
  have h13' : Real.sqrt ((-5 - -1) * (-5 - -1) + (5 - 2) * (5 - 2) + (12 - 0) * (12 - 0) : ℝ)
      = 13 := h13
  rw [h13']
  rw [show ((5 - 2) / 13 : ℝ) = 3 / 13 by norm_num]
  rw [clamp_of_mem (by norm_num) (by norm_num)]

/-- Lower bound for the seeded phi: `0.01 ≤ arccos (3/13)`. -/
theorem arccos_three_13_lower : (0.01 : ℝ) ≤ Real.arccos (3 / 13) := by
  have h1 : (1 : ℝ) - 0.01 ^ 2 / 2 ≤ Real.cos 0.01 := Real.one_sub_sq_div_two_le_cos
  have h2 : (3 : ℝ) / 13 ≤ Real.cos 0.01 := by
    have : (3 : ℝ) / 13 ≤ 1 - 0.01 ^ 2 / 2 := by norm_num
    linarith
  have h3 : Real.arcsin (3 / 13) ≤ Real.arcsin (Real.cos 0.01) := Real.monotone_arcsin h2
  have h4 : Real.arccos (Real.cos 0.01) = 0.01 :=
    Real.arccos_cos (by norm_num) (by linarith [Real.pi_gt_three])
  have h5 : Real.arccos (Real.cos 0.01) ≤ Real.arccos (3 / 13) := by
    rw [Real.arccos_eq_pi_div_two_sub_arcsin, Real.arccos_eq_pi_div_two_sub_arcsin]
    linarith
  linarith

/-- Upper bound for the seeded phi: `arccos (3/13) ≤ π - 0.01`. -/
theorem arccos_three_13_upper : Real.arccos (3 / 13) ≤ Real.pi - 0.01 := by
  have h1 : Real.arccos (3 / 13) ≤ Real.pi / 2 :=
    Real.arccos_le_pi_div_two.mpr (by norm_num)
  linarith [Real.pi_gt_three]

theorem seed_continuity_witness :
    ((⟨-5, 5, 12⟩ : Vector3) ≠ target ∧
      XR_NAV.minRadius ≤ (syncSpherical ⟨-5, 5, 12⟩).radius ∧
      (syncSpherical ⟨-5, 5, 12⟩).radius ≤ XR_NAV.maxRadius ∧
      XR_NAV.minPhi ≤ (syncSpherical ⟨-5, 5, 12⟩).phi ∧
      (syncSpherical ⟨-5, 5, 12⟩).phi ≤ XR_NAV.maxPhi) ∧
    (applySphericalToRig
        ⟨syncSpherical ⟨-5, 5, 12⟩, ⟨⟨0, 0, 0⟩, ⟨0, 0, 0⟩⟩, target⟩).rig.position
      = ⟨-5, 5, 12⟩ := by
  have hne : (⟨-5, 5, 12⟩ : Vector3) ≠ target := by
    intro h
    have := congrArg Vector3.x h
    simp only [target] at this
    norm_num at this
  have hr1 : XR_NAV.minRadius ≤ (syncSpherical ⟨-5, 5, 12⟩ : Spherical).radius := by
    rw [show (⟨-5, 5, 12⟩ : Vector3) = initialCameraPosition from rfl, seed_radius_initial]
    norm_num [XR_NAV]
  have hr2 : (syncSpherical ⟨-5, 5, 12⟩ : Spherical).radius ≤ XR_NAV.maxRadius := by
    rw [show (⟨-5, 5, 12⟩ : Vector3) = initialCameraPosition from rfl, seed_radius_initial]
    norm_num [XR_NAV]
  have hp1 : XR_NAV.minPhi ≤ (syncSpherical ⟨-5, 5, 12⟩ : Spherical).phi := by
    rw [show (⟨-5, 5, 12⟩ : Vector3) = initialCameraPosition from rfl, seed_phi_initial]
    exact arccos_three_13_lower
  have hp2 : (syncSpherical ⟨-5, 5, 12⟩ : Spherical).phi ≤ XR_NAV.maxPhi := by
    rw [show (⟨-5, 5, 12⟩ : Vector3) = initialCameraPosition from rfl, seed_phi_initial]
    exact arccos_three_13_upper
  exact ⟨⟨hne, hr1, hr2, hp1, hp2⟩,
    seed_continuity ⟨-5, 5, 12⟩ ⟨⟨0, 0, 0⟩, ⟨0, 0, 0⟩⟩ hne hr1 hr2 hp1 hp2⟩

/-- C4 counterexample: the seeded radius for camera `(-5,5,12)` and pivot
`(-1,2,0)` is exactly `13`, not approximately `11.0` — it differs from 11
by 2. -/
theorem handoff_radius_not_eleven :
    (syncSpherical initialCameraPosition).radius = 13 ∧
    |(syncSpherical initialCameraPosition).radius - 11.0| = 2 := by
  refine ⟨seed_radius_initial, ?_⟩
  rw [seed_radius_initial]
  norm_num

/-- C4 amended: for camera `(-5,5,12)` and pivot `(-1,2,0)` the seeded
spherical state has radius `|(-5,5,12)-(-1,2,0)| = 13`, and projecting that
state back through `applySphericalToRig` yields exactly the original camera
position (so in particular within 1e-4). -/
theorem handoff_scenario :
    (syncSpherical initialCameraPosition).radius = 13 ∧
    (applySphericalToRig
        ⟨syncSpherical initialCameraPosition, ⟨⟨0, 0, 0⟩, ⟨0, 0, 0⟩⟩, target⟩).rig.position
      = initialCameraPosition := by
  refine ⟨seed_radius_initial, seed_roundTrip_aux initialCameraPosition _ ?_ ?_ ?_ ?_⟩
  · rw [seed_radius_initial]
    norm_num [XR_NAV]
  · rw [seed_radius_initial]
    norm_num [XR_NAV]
  · rw [seed_phi_initial]
    exact arccos_three_13_lower
  · rw [seed_phi_initial]
    exact arccos_three_13_upper

end ThreeNav
